import Mathlib

/-!
Shallow embedding of the Karakeep "unarchived bookmark counter" content
script (content.js): JS string primitives, the bookmark classifier and the
two page counters, the sidebar list-directory scanner, the remote fetcher
and the cooldown-gated reconciliation scheduler, together with theorems
settling the specification claims.
-/

namespace Karakeep

/-! JS string primitives, modelled over `List Char`. -/

/-- Whitespace trim at both ends, modelling `String.prototype.trim`. -/
def trimChars (cs : List Char) : List Char :=
  ((cs.dropWhile Char.isWhitespace).reverse.dropWhile Char.isWhitespace).reverse

/-- Model of JS `s.trim()`. -/
def jsTrim (s : String) : String := String.mk (trimChars s.toList)

/-- Model of JS `s.toLowerCase()` (ASCII range, which is all the code compares). -/
def jsToLower (s : String) : String := String.mk (s.toList.map Char.toLower)

/-- Contiguous-substring test over character lists. -/
def isInfixChars (sub : List Char) : List Char → Bool
  | [] => sub.isEmpty
  | c :: rest => sub.isPrefixOf (c :: rest) || isInfixChars sub rest

/-- Model of JS `s.includes(sub)`: contiguous substring containment. -/
def jsIncludes (s sub : String) : Bool := isInfixChars sub.toList s.toList

/-- Model of JS `s.startsWith(pre)`, used for the `a[href^="http"]` selector. -/
def jsStartsWith (s pre : String) : Bool := pre.toList.isPrefixOf s.toList

/-- Splits off the text before the first occurrence of `sep` and the text
after it; `none` when `sep` does not occur. -/
def findSplit (sep : List Char) : List Char → Option (List Char × List Char)
  | [] => none
  | c :: rest =>
    if sep.isPrefixOf (c :: rest) then some ([], (c :: rest).drop sep.length)
    else
      match findSplit sep rest with
      | some (pre, post) => some (c :: pre, post)
      | none => none

/-- Fuel-driven worker for `jsSplit`. -/
def jsSplitAux (sep : List Char) : Nat → List Char → List (List Char)
  | 0, s => [s]
  | fuel + 1, s =>
    match findSplit sep s with
    | none => [s]
    | some (pre, post) => pre :: jsSplitAux sep fuel post

/-- Model of JS `s.split(sep)` for a non-empty separator string. -/
def jsSplit (s sep : String) : List String :=
  (jsSplitAux sep.toList (s.toList.length + 1) s.toList).map (fun cs => String.mk cs)

/-- The `href.split('/lists/')[1]` idiom used for both the sidebar links and
the current `location.pathname`; `none` models JS `undefined`. -/
def extractListId (href : String) : Option String := (jsSplit href "/lists/").get? 1

/-- Hexadecimal digit test for the JS `parseInt` `0x` prefix. -/
def isHexDigitChar (c : Char) : Bool :=
  c.isDigit || (decide ('a' ≤ c) && decide (c ≤ 'f')) || (decide ('A' ≤ c) && decide (c ≤ 'F'))

/-- Numeric value of a (decimal or hexadecimal) digit character. -/
def hexDigitVal (c : Char) : Nat :=
  if c.isDigit then c.toNat - Char.toNat '0'
  else if decide ('a' ≤ c) && decide (c ≤ 'f') then c.toNat - Char.toNat 'a' + 10
  else c.toNat - Char.toNat 'A' + 10

/-- Accumulates digit characters into a natural number in the given base. -/
def digitsToNat (base : Nat) (ds : List Char) : Nat :=
  ds.foldl (fun acc c => acc * base + hexDigitVal c) 0

/-- Model of JS `parseInt(s)` with no radix argument: skip leading whitespace,
optional sign, `0x`/`0X` hexadecimal prefix, longest digit prefix; `none`
models `NaN`. -/
def parseIntJS (s : String) : Option Int :=
  let cs := s.toList.dropWhile Char.isWhitespace
  let signRest : Int × List Char :=
    match cs with
    | '-' :: r => (-1, r)
    | '+' :: r => (1, r)
    | r => (1, r)
  match signRest.2 with
  | '0' :: x :: r =>
    if x = 'x' ∨ x = 'X' then
      let ds := r.takeWhile isHexDigitChar
      if ds.isEmpty then none else some (signRest.1 * Int.ofNat (digitsToNat 16 ds))
    else
      let ds := ('0' :: x :: r).takeWhile Char.isDigit
      if ds.isEmpty then none else some (signRest.1 * Int.ofNat (digitsToNat 10 ds))
  | r =>
    let ds := r.takeWhile Char.isDigit
    if ds.isEmpty then none else some (signRest.1 * Int.ofNat (digitsToNat 10 ds))

/-- Model of the `parseInt(text) || 0` idiom: `NaN` (and `0` itself) become `0`. -/
def parseIntOr0 (s : String) : Int :=
  match parseIntJS s with
  | none => 0
  | some n => n

/-! Data model: bookmark cards and documents. -/

/-- One bookmark card fragment, as consulted by the classifier: trimmed-able
text content, class-name string, the `href` attributes of its descendant
anchors, the `data-archived` marker, and the computed style (opacity and
display) that is only meaningful on the live attached page. -/
structure Card where
  text : String
  className : String
  linkHrefs : List String
  hasDataArchived : Bool
  opacity : Rat
  display : String
deriving DecidableEq

/-- Model of `card.querySelector('a[href^="http"]')` being non-null. -/
def cardHasExternalLink (c : Card) : Bool :=
  c.linkHrefs.any (fun h => jsStartsWith h "http")

/-- A document as consulted by the counters: the designated `main` region,
absent (`none`) or holding the card fragments matching the fixed
bookmark-card structural signature. -/
structure Doc where
  main : Option (List Card)
deriving DecidableEq

/-- Validity test shared by both counters: an outbound (`http`-prefixed)
link, and trimmed text length strictly between 10 and 200. -/
def isValidCard (c : Card) : Bool :=
  cardHasExternalLink c
    && decide (10 < (jsTrim c.text).length) && decide ((jsTrim c.text).length < 200)

/-- Archive test in `countBookmarksInDocument` (detached document path):
text substring, class substring, or the `data-archived` attribute. -/
def isArchivedDoc (c : Card) : Bool :=
  jsIncludes (jsToLower (jsTrim c.text)) "archived"
    || jsIncludes (jsToLower c.className) "archived"
    || c.hasDataArchived

/-- Archive test in `countVisibleBookmarks` (live attached path): the
detached-path signals plus computed opacity `< 1` or display `"none"`. -/
def isArchivedLive (c : Card) : Bool :=
  jsIncludes (jsToLower (jsTrim c.text)) "archived"
    || jsIncludes (jsToLower c.className) "archived"
    || decide (c.opacity < 1)
    || (c.display == "none")
    || c.hasDataArchived

/-- Embedding of `countBookmarksInDocument(doc)`: `0` when the `main` region
is absent, else the number of valid, non-archived cards. -/
def countBookmarksInDocument (doc : Doc) : Nat :=
  match doc.main with
  | none => 0
  | some cards => cards.countP (fun c => isValidCard c && !(isArchivedDoc c))

/-- Embedding of `countVisibleBookmarks()` on the live page: `null` (`none`)
when the `main` region is absent, else the number of valid, non-archived
cards under the live archive test. -/
def countVisibleBookmarks (doc : Doc) : Option Nat :=
  match doc.main with
  | none => none
  | some cards => some (cards.countP (fun c => isValidCard c && !(isArchivedLive c)))

/-! Remote fetcher. -/

/-- The `setTimeout(() => controller.abort(), 5000)` constant. -/
def fetchTimeoutMs : Nat := 5000

/-- Behaviour of the network for one `fetch` of a list page: how long the
response takes, whether the request errors, the HTTP `ok` flag, and the
parsed body document. -/
structure NetworkBehavior where
  latencyMs : Nat
  networkError : Bool
  statusOk : Bool
  body : Doc
deriving DecidableEq

/-- Embedding of `fetchListBookmarkCount(listId)`: abort (timeout) when the
response is slower than `fetchTimeoutMs`, `null` on network error or a
non-`ok` status, otherwise the detached-document count of the parsed body. -/
def fetchListBookmarkCount (nb : NetworkBehavior) : Option Nat :=
  if fetchTimeoutMs < nb.latencyMs then none
  else if nb.networkError then none
  else if !nb.statusOk then none
  else some (countBookmarksInDocument nb.body)

/-- Embedding of `getUnarchivedCountForList(listId)`: count the live page
when `location.pathname.split('/lists/')[1]` equals `listId`, otherwise
fetch and count the detached document. -/
def getUnarchivedCountForList (pathname listId : String) (liveDoc : Doc)
    (nb : NetworkBehavior) : Option Nat :=
  let currentListId := extractListId pathname
  if currentListId = some listId then countVisibleBookmarks liveDoc
  else fetchListBookmarkCount nb

/-! List directory scanner. -/

/-- One sidebar anchor with an `href` attribute: its destination, its text
content, and the badge found by `link.closest('li')` followed by the
rounded/border badge `querySelector` (`none` when either step fails). The
badge is identified by its index into the badge-text store. -/
structure LinkElem where
  href : String
  text : String
  badge : Option Nat
deriving DecidableEq

/-- One descriptor produced by the scanner: list id, trimmed display name,
badge handle, and the displayed count parsed at scan time. -/
structure ListInfo where
  listId : String
  name : String
  badgeId : Nat
  currentCount : Int
deriving DecidableEq

/-- The DOM as the script observes and mutates it: the text content of each
counter badge, indexed by badge handle. -/
abbrev Dom := List String

/-- The body of the `links.forEach` in `findAllListLinks`: the descriptor
pushed for one anchor, or `none` when the extracted list id is falsy
(`undefined` or empty) or no badge is discoverable. -/
def scanLink (dom : Dom) (l : LinkElem) : Option ListInfo :=
  match extractListId l.href, l.badge with
  | some listId, some b =>
    if listId ≠ "" then
      some { listId := listId, name := jsTrim l.text, badgeId := b,
             currentCount := parseIntOr0 (jsTrim (dom.getD b "")) }
    else none
  | _, _ => none

/-- Embedding of `findAllListLinks()`: empty when the sidebar is absent;
otherwise one descriptor per anchor whose `href` contains `/lists/`,
skipping anchors with a falsy extracted list id or no discoverable badge. -/
def findAllListLinks (sidebarPresent : Bool) (links : List LinkElem) (dom : Dom) :
    List ListInfo :=
  if !sidebarPresent then []
  else (links.filter (fun l => jsIncludes l.href "/lists/")).filterMap (scanLink dom)

/-! Reconciliation scheduler. -/

/-- Outcome of awaiting one list's `getUnarchivedCountForList` promise: a
value (possibly `null`) or a rejection/exception. -/
abbrev ResolveResult := Except String (Option Nat)

/-- Embedding of `updateListCount(listInfo)` given the awaited resolution:
write `unarchivedCount.toString()` into the badge exactly when the
resolution is a non-null count different from the scan-time count; a caught
exception or a `null`/equal count leaves the DOM alone. -/
def updateListCount (dom : Dom) (info : ListInfo) (res : ResolveResult) : Dom :=
  match res with
  | .error _ => dom
  | .ok unarchivedCount =>
    match unarchivedCount with
    | some n => if (n : Int) ≠ info.currentCount then dom.set info.badgeId (toString n) else dom
    | none => dom

/-- The fan-out of `updateListCount` over every discovered list (the
`Promise.allSettled` block), with an arbitrary per-list resolution. -/
def runWrites (resolve : ListInfo → ResolveResult) (infos : List ListInfo) (dom : Dom) : Dom :=
  infos.foldl (fun d info => updateListCount d info (resolve info)) dom

/-- The `this.updateCooldown = 10000` constant. -/
def updateCooldown : Nat := 10000

/-- Scheduler-owned mutable state: the (never touched) `listCounts` cache
and `lastUpdateTime`. -/
structure SchedulerState where
  listCounts : List (String × Nat)
  lastUpdateTime : Nat
deriving DecidableEq

/-- The constructor's state: empty cache, `lastUpdateTime = 0`. -/
def initState : SchedulerState := { listCounts := [], lastUpdateTime := 0 }

/-- Environment of one run: the clock, the sidebar and its anchors, the
current navigation path, the live document, and the network's behaviour for
each list id. -/
structure RunEnv where
  now : Nat
  sidebarPresent : Bool
  sidebarLinks : List LinkElem
  pathname : String
  liveDoc : Doc
  fetch : String → NetworkBehavior

/-- The concrete resolution the run uses for one list (it never rejects:
`fetchListBookmarkCount` and `updateListCount` both catch internally). -/
def resolveList (env : RunEnv) (info : ListInfo) : ResolveResult :=
  .ok (getUnarchivedCountForList env.pathname info.listId env.liveDoc (env.fetch info.listId))

/-- The list ids for which a run issues a network fetch: every discovered
list other than the currently viewed one. -/
def listFetchLog (env : RunEnv) (infos : List ListInfo) : List String :=
  infos.filterMap (fun info =>
    if extractListId env.pathname = some info.listId then none else some info.listId)

/-- Observable outcome of one call to the run entry point. -/
structure RunOutcome where
  state : SchedulerState
  dom : Dom
  fetches : List String
deriving DecidableEq

/-- The `now - this.lastUpdateTime < this.updateCooldown` gate. -/
def cooldownActive (st : SchedulerState) (now : Nat) : Bool :=
  decide (now - st.lastUpdateTime < updateCooldown)

/-- Embedding of `updateAllListCounts()`: abort under the cooldown gate, when
the sidebar is absent, or when no list is discovered; otherwise arm the
cooldown (`lastUpdateTime = now`) and fan out the per-list updates. -/
def updateAllListCounts (st : SchedulerState) (env : RunEnv) (dom : Dom) : RunOutcome :=
  if cooldownActive st env.now then ⟨st, dom, []⟩
  else if !env.sidebarPresent then ⟨st, dom, []⟩
  else
    let listLinks := findAllListLinks env.sidebarPresent env.sidebarLinks dom
    if listLinks.isEmpty then ⟨st, dom, []⟩
    else
      ⟨{ st with lastUpdateTime := env.now },
       runWrites (resolveList env) listLinks dom,
       listFetchLog env listLinks⟩

/-- A sequence of invocations of the run entry point, tracking the scheduler
state across them. -/
def runSeq (st : SchedulerState) (evs : List (RunEnv × Dom)) : SchedulerState :=
  evs.foldl (fun s e => (updateAllListCounts s e.1 e.2).state) st

/-- Modelled from the spec: the "trailing path segment" of a link
destination named by claim C9, i.e. the last `/`-separated component. -/
def specTrailingSegment (href : String) : String :=
  ((jsSplit href "/").getLast?).getD ""

/-! Concrete fixtures used by witnesses. -/

/-- A fast, successful fetch of an empty list page. -/
def nbOk : NetworkBehavior := ⟨100, false, true, ⟨none⟩⟩

/-- A sidebar with one list link ("Reading", id `abc123`, badge 0) whose page
is currently being viewed and renders no bookmark cards. -/
def envReading : RunEnv :=
  { now := 20000
    sidebarPresent := true
    sidebarLinks := [⟨"/dashboard/lists/abc123", " Reading ", some 0⟩]
    pathname := "/dashboard/lists/abc123"
    liveDoc := ⟨some []⟩
    fetch := fun _ => nbOk }

/-- The descriptor the scanner produces for `envReading` over badge text "12". -/
def infoReading : ListInfo := ⟨"abc123", "Reading", 0, 12⟩

/-! Helper lemmas about the per-list write-back fan-out. -/

theorem updateListCount_length (dom : Dom) (info : ListInfo) (res : ResolveResult) :
    (updateListCount dom info res).length = dom.length := by
  cases res with
  | error e => rfl
  | ok c =>
    cases c with
    | none => rfl
    | some n =>
      unfold updateListCount
      dsimp only
      split
      · exact List.length_set ..
      · rfl

theorem updateListCount_get_ne (dom : Dom) (info : ListInfo) (res : ResolveResult)
    (j : Nat) (h : info.badgeId ≠ j) :
    (updateListCount dom info res)[j]? = dom[j]? := by
  cases res with
  | error e => rfl
  | ok c =>
    cases c with
    | none => rfl
    | some n =>
      unfold updateListCount
      dsimp only
      split
      · exact List.getElem?_set_ne h
      · rfl

theorem updateListCount_get_self_congr (d d' : Dom) (info : ListInfo) (res : ResolveResult)
    (hlen : d.length = d'.length) (hget : d[info.badgeId]? = d'[info.badgeId]?) :
    (updateListCount d info res)[info.badgeId]? = (updateListCount d' info res)[info.badgeId]? := by
  cases res with
  | error e => exact hget
  | ok c =>
    cases c with
    | none => exact hget
    | some n =>
      unfold updateListCount
      dsimp only
      split
      · rw [List.getElem?_set, List.getElem?_set]
        simp [hlen]
      · exact hget

theorem runWrites_cons (r : ListInfo → ResolveResult) (a : ListInfo) (rest : List ListInfo)
    (dom : Dom) :
    runWrites r (a :: rest) dom = runWrites r rest (updateListCount dom a (r a)) := rfl

theorem runWrites_length (r : ListInfo → ResolveResult) (infos : List ListInfo) (dom : Dom) :
    (runWrites r infos dom).length = dom.length := by
  induction infos generalizing dom with
  | nil => rfl
  | cons a rest ih => rw [runWrites_cons, ih, updateListCount_length]

theorem runWrites_get_ne (r : ListInfo → ResolveResult) (infos : List ListInfo) (dom : Dom)
    (j : Nat) (h : ∀ info ∈ infos, info.badgeId ≠ j) :
    (runWrites r infos dom)[j]? = dom[j]? := by
  induction infos generalizing dom with
  | nil => rfl
  | cons a rest ih =>
    rw [runWrites_cons, ih _ (fun i hi => h i (List.mem_cons_of_mem _ hi)),
      updateListCount_get_ne _ _ _ _ (h a (List.mem_cons_self _ _))]

theorem runWrites_get_mem (r : ListInfo → ResolveResult) (infos : List ListInfo) (dom : Dom)
    (info : ListInfo) (hmem : info ∈ infos)
    (hnodup : (infos.map ListInfo.badgeId).Nodup) :
    (runWrites r infos dom)[info.badgeId]? =
      (updateListCount dom info (r info))[info.badgeId]? := by
  induction infos generalizing dom with
  | nil => cases hmem
  | cons a rest ih =>
    rw [List.map_cons, List.nodup_cons] at hnodup
    obtain ⟨hnotmem, hnd⟩ := hnodup
    rw [runWrites_cons]
    rcases List.mem_cons.mp hmem with rfl | hmem'
    · exact runWrites_get_ne _ _ _ _
        (fun i hi heq => hnotmem (heq ▸ List.mem_map_of_mem ListInfo.badgeId hi))
    · rw [ih _ hmem' hnd]
      have hne : a.badgeId ≠ info.badgeId := by
        intro heq
        exact hnotmem (heq ▸ List.mem_map_of_mem ListInfo.badgeId hmem')
      exact updateListCount_get_self_congr _ _ _ _
        (updateListCount_length dom a (r a))
        (updateListCount_get_ne dom a (r a) _ hne)

/-! Helper lemmas about the run entry point. -/

theorem updateAllListCounts_gated (st : SchedulerState) (env : RunEnv) (dom : Dom)
    (h : cooldownActive st env.now = true) :
    updateAllListCounts st env dom = ⟨st, dom, []⟩ := by
  unfold updateAllListCounts
  rw [h]
  rfl

theorem updateAllListCounts_run (st : SchedulerState) (env : RunEnv) (dom : Dom)
    (hcool : cooldownActive st env.now = false)
    (hsb : env.sidebarPresent = true)
    (hne : findAllListLinks env.sidebarPresent env.sidebarLinks dom ≠ []) :
    updateAllListCounts st env dom =
      ⟨{ st with lastUpdateTime := env.now },
       runWrites (resolveList env) (findAllListLinks env.sidebarPresent env.sidebarLinks dom) dom,
       listFetchLog env (findAllListLinks env.sidebarPresent env.sidebarLinks dom)⟩ := by
  unfold updateAllListCounts
  rw [hsb] at hne
  rw [hcool, hsb]
  dsimp only
  rw [if_neg (by simp)]
  cases h : findAllListLinks true env.sidebarLinks dom with
  | nil => exact absurd h hne
  | cons a rest => simp

/-! Claim theorems. -/

/-- C3: an entry is counted as an unarchived bookmark only if it is a valid
candidate — at least one `http`-prefixed outbound link and trimmed text
length strictly between 10 and 200; a card failing the window (or lacking
the link) contributes nothing to either the fetched-document count or the
live-page count, wherever it sits among the cards. -/
theorem claim3_validity_window (pre post : List Card) (c : Card)
    (h : cardHasExternalLink c = false ∨ (jsTrim c.text).length ≤ 10 ∨
      200 ≤ (jsTrim c.text).length) :
    isValidCard c = false ∧
    countBookmarksInDocument ⟨some (pre ++ c :: post)⟩ =
      countBookmarksInDocument ⟨some (pre ++ post)⟩ ∧
    countVisibleBookmarks ⟨some (pre ++ c :: post)⟩ =
      countVisibleBookmarks ⟨some (pre ++ post)⟩ := by
  have hval : isValidCard c = false := by
    unfold isValidCard
    rcases h with h | h | h
    · simp [h]
    · simp [Nat.not_lt.mpr h]
    · simp [Nat.not_lt.mpr h]
  refine ⟨hval, ?_, ?_⟩ <;>
    simp [countBookmarksInDocument, countVisibleBookmarks, List.countP_append,
      List.countP_cons, hval]

/-- C3 witness: a card with an outbound link but 4-character text is not
counted by either counter. -/
theorem claim3_validity_window_witness :
    countBookmarksInDocument ⟨some [⟨"tiny", "card", ["https://a.io"], false, 1, "block"⟩]⟩ =
      countBookmarksInDocument ⟨some []⟩ ∧
    countVisibleBookmarks ⟨some [⟨"tiny", "card", ["https://a.io"], false, 1, "block"⟩]⟩ =
      countVisibleBookmarks ⟨some []⟩ :=
  (claim3_validity_window [] [] ⟨"tiny", "card", ["https://a.io"], false, 1, "block"⟩
    (Or.inr (Or.inl (by decide)))).2

/-- C4: a card whose lower-cased trimmed text contains "archived" is never
counted by either counter, regardless of link/length validity; and each of
the three markup signals (text substring, class substring, `data-archived`
attribute) makes both archive classifiers true. -/
theorem claim4_archived_exclusion (pre post : List Card) (c : Card) :
    (jsIncludes (jsToLower (jsTrim c.text)) "archived" = true →
      countBookmarksInDocument ⟨some (pre ++ c :: post)⟩ =
        countBookmarksInDocument ⟨some (pre ++ post)⟩ ∧
      countVisibleBookmarks ⟨some (pre ++ c :: post)⟩ =
        countVisibleBookmarks ⟨some (pre ++ post)⟩) ∧
    ((jsIncludes (jsToLower (jsTrim c.text)) "archived" = true ∨
      jsIncludes (jsToLower c.className) "archived" = true ∨
      c.hasDataArchived = true) →
      isArchivedDoc c = true ∧ isArchivedLive c = true) := by
  constructor
  · intro htext
    have hdoc : isArchivedDoc c = true := by simp [isArchivedDoc, htext]
    have hlive : isArchivedLive c = true := by simp [isArchivedLive, htext]
    constructor <;>
      simp [countBookmarksInDocument, countVisibleBookmarks, List.countP_append,
        List.countP_cons, hdoc, hlive]
  · intro h
    rcases h with h | h | h <;>
      exact ⟨by simp [isArchivedDoc, h], by simp [isArchivedLive, h]⟩

/-- C4 witness: a long, outbound-linked card whose text says "Archived" is
not counted by either counter, case-insensitively. -/
theorem claim4_archived_exclusion_witness :
    countBookmarksInDocument
        ⟨some [⟨"This item was Archived yesterday", "card", ["https://a.io"], false, 1, "block"⟩]⟩ =
      countBookmarksInDocument ⟨some []⟩ ∧
    countVisibleBookmarks
        ⟨some [⟨"This item was Archived yesterday", "card", ["https://a.io"], false, 1, "block"⟩]⟩ =
      countVisibleBookmarks ⟨some []⟩ :=
  (claim4_archived_exclusion [] []
    ⟨"This item was Archived yesterday", "card", ["https://a.io"], false, 1, "block"⟩).1
    (by decide)

/-- C5 counterexample: on a document with no `main` region the live counting
function `countVisibleBookmarks` returns `null` (`none`), not 0, contrary to
the claim that both counting paths return 0 there. -/
theorem claim5_absent_main_counterexample :
    countVisibleBookmarks ⟨none⟩ = none ∧ countVisibleBookmarks ⟨none⟩ ≠ some 0 := by
  exact ⟨rfl, by decide⟩

/-- C5 amended: on a document whose `main` region is absent, the
fetched-document counter returns 0, but the live counter returns `null`
("unknown"), which the caller treats as leave-the-badge-unchanged. -/
theorem claim5_absent_main_amended (doc : Doc) (h : doc.main = none) :
    countBookmarksInDocument doc = 0 ∧ countVisibleBookmarks doc = none := by
  obtain ⟨m⟩ := doc
  cases m with
  | none => exact ⟨rfl, rfl⟩
  | some cards => simp at h

/-- C5 witness: the amended behaviour evaluated on the empty document. -/
theorem claim5_absent_main_amended_witness :
    countBookmarksInDocument ⟨none⟩ = 0 ∧ countVisibleBookmarks ⟨none⟩ = none :=
  claim5_absent_main_amended ⟨none⟩ rfl

/-- C6 counterexample: the two counting paths are not identical up to the
style-based signals — on a document with no `main` region (so no card and no
style signal involved) the live path yields `null` while the fetched path
yields the integer 0. -/
theorem claim6_dispatch_counterexample :
    countVisibleBookmarks ⟨none⟩ = none ∧
    countBookmarksInDocument ⟨none⟩ = 0 ∧
    countVisibleBookmarks ⟨none⟩ ≠ some (countBookmarksInDocument ⟨none⟩) := by
  exact ⟨rfl, rfl, by decide⟩

/-- C6 amended: the count is resolved from the live document exactly when
the list id equals the id extracted from the navigation path, otherwise by
fetch-and-count; when the `main` region is present and no card triggers the
style-based signals the two counting paths agree (live = some of fetched);
and the fetched-document classification ignores opacity and display
entirely; the residual difference is the absent-`main` case, where live
yields `null` and fetched yields 0. -/
theorem claim6_dispatch_amended :
    (∀ (pathname listId : String) (liveDoc : Doc) (nb : NetworkBehavior),
      getUnarchivedCountForList pathname listId liveDoc nb =
        if extractListId pathname = some listId then countVisibleBookmarks liveDoc
        else fetchListBookmarkCount nb) ∧
    (∀ cards : List Card,
      (∀ c ∈ cards, ¬ (c.opacity < 1) ∧ c.display ≠ "none") →
      countVisibleBookmarks ⟨some cards⟩ = some (countBookmarksInDocument ⟨some cards⟩)) ∧
    (∀ (c : Card) (q : Rat) (s : String),
      isValidCard { c with opacity := q, display := s } = isValidCard c ∧
      isArchivedDoc { c with opacity := q, display := s } = isArchivedDoc c) := by
  refine ⟨fun _ _ _ _ => rfl, ?_, fun c q s => ⟨rfl, rfl⟩⟩
  intro cards h
  simp only [countVisibleBookmarks, countBookmarksInDocument, Option.some.injEq]
  apply List.countP_congr
  intro c hc
  have harch : isArchivedLive c = isArchivedDoc c := by
    unfold isArchivedLive isArchivedDoc
    simp [(h c hc).1, beq_eq_false_iff_ne.mpr (h c hc).2]
  rw [harch]

/-- C6 witness: on a fully-opaque, displayed card the two counting paths
agree. -/
theorem claim6_dispatch_amended_witness :
    countVisibleBookmarks
        ⟨some [⟨"a perfectly ordinary bookmark", "card", ["https://a.io"], false, 1, "block"⟩]⟩ =
      some (countBookmarksInDocument
        ⟨some [⟨"a perfectly ordinary bookmark", "card", ["https://a.io"], false, 1, "block"⟩]⟩) :=
  claim6_dispatch_amended.2.1
    [⟨"a perfectly ordinary bookmark", "card", ["https://a.io"], false, 1, "block"⟩]
    (by decide)

/-- C7: the fetch path's timeout constant is 5 seconds; a response slower
than the timeout, a network error, or a non-success HTTP status all make
`fetchListBookmarkCount` return `null` rather than raising; and the caller
leaves the badge untouched on a `null` resolution. -/
theorem claim7_fetch_failure :
    fetchTimeoutMs = 5000 ∧
    (∀ nb : NetworkBehavior,
      fetchTimeoutMs < nb.latencyMs ∨ nb.networkError = true ∨ nb.statusOk = false →
      fetchListBookmarkCount nb = none) ∧
    (∀ (dom : Dom) (info : ListInfo), updateListCount dom info (.ok none) = dom) := by
  refine ⟨rfl, ?_, fun _ _ => rfl⟩
  intro nb h
  unfold fetchListBookmarkCount
  rcases h with h | h | h
  · rw [if_pos h]
  · simp [h]
  · simp [h]

/-- C7 witness: a 6-second response, a network error, and a 404 each yield
`null`, and a `null` resolution writes nothing. -/
theorem claim7_fetch_failure_witness :
    fetchListBookmarkCount ⟨6000, false, true, ⟨none⟩⟩ = none ∧
    fetchListBookmarkCount ⟨100, true, true, ⟨none⟩⟩ = none ∧
    fetchListBookmarkCount ⟨100, false, false, ⟨none⟩⟩ = none ∧
    updateListCount ["8"] infoReading (.ok none) = ["8"] :=
  ⟨claim7_fetch_failure.2.1 ⟨6000, false, true, ⟨none⟩⟩ (Or.inl (by decide)),
   claim7_fetch_failure.2.1 ⟨100, true, true, ⟨none⟩⟩ (Or.inr (Or.inl rfl)),
   claim7_fetch_failure.2.1 ⟨100, false, false, ⟨none⟩⟩ (Or.inr (Or.inr rfl)),
   claim7_fetch_failure.2.2 ["8"] infoReading⟩

/-- C1: within a run, for each discovered list (badges pairwise distinct and
in range), a resolution to a known integer different from the count parsed
at scan time overwrites the badge with that integer's decimal text; a
resolution equal to the scan-time count, or a `null` resolution, leaves the
badge text unchanged. -/
theorem claim1_badge_writeback (st : SchedulerState) (env : RunEnv) (dom : Dom)
    (info : ListInfo)
    (hmem : info ∈ findAllListLinks env.sidebarPresent env.sidebarLinks dom)
    (hnodup : ((findAllListLinks env.sidebarPresent env.sidebarLinks dom).map
      ListInfo.badgeId).Nodup)
    (hcool : cooldownActive st env.now = false)
    (hlt : info.badgeId < dom.length) (n : Nat) :
    (resolveList env info = .ok (some n) → (n : Int) ≠ info.currentCount →
      (updateAllListCounts st env dom).dom[info.badgeId]? = some (toString n)) ∧
    (resolveList env info = .ok (some n) → (n : Int) = info.currentCount →
      (updateAllListCounts st env dom).dom[info.badgeId]? = dom[info.badgeId]?) ∧
    (resolveList env info = .ok none →
      (updateAllListCounts st env dom).dom[info.badgeId]? = dom[info.badgeId]?) := by
  have hne : findAllListLinks env.sidebarPresent env.sidebarLinks dom ≠ [] := by
    intro h0
    rw [h0] at hmem
    cases hmem
  have hsb : env.sidebarPresent = true := by
    cases hsbv : env.sidebarPresent
    · rw [findAllListLinks, hsbv] at hmem
      simp at hmem
    · rfl
  rw [updateAllListCounts_run st env dom hcool hsb hne]
  dsimp only
  rw [runWrites_get_mem (resolveList env) _ dom info hmem hnodup]
  refine ⟨?_, ?_, ?_⟩
  · intro hres hneq
    rw [hres]
    unfold updateListCount
    dsimp only
    rw [if_pos hneq]
    exact List.getElem?_set_self hlt
  · intro hres heq
    have hnn : ¬ ((n : Int) ≠ info.currentCount) := fun hn => hn heq
    rw [hres]
    unfold updateListCount
    dsimp only
    rw [if_neg hnn]
  · intro hres
    rw [hres]
    rfl

/-- C1 witness: with badge text "12" and a live count of 0, the run
overwrites the badge with "0". -/
theorem claim1_badge_writeback_witness :
    (updateAllListCounts initState envReading ["12"]).dom[0]? = some "0" :=
  (claim1_badge_writeback initState envReading ["12"] infoReading
    (by decide) (by decide) (by decide) (by decide) 0).1 rfl (by decide)

/-- C2: a run invoked while less than the 10-second cooldown has elapsed
since `lastUpdateTime` aborts with no state change, no DOM write and no
fetch; the first run (with `lastUpdateTime = 0`) is not suppressed at any
realistic clock value; `lastUpdateTime` is set to the current time exactly
when the readiness checks pass, independently of any per-list result
(pathname, live document or network); and a second run within the cooldown
window of a completed run writes nothing. -/
theorem claim2_cooldown_gate :
    (∀ (st : SchedulerState) (env : RunEnv) (dom : Dom),
      cooldownActive st env.now = true → updateAllListCounts st env dom = ⟨st, dom, []⟩) ∧
    (∀ now : Nat, updateCooldown ≤ now → cooldownActive initState now = false) ∧
    (∀ (st : SchedulerState) (env : RunEnv) (dom : Dom),
      cooldownActive st env.now = false → env.sidebarPresent = true →
      findAllListLinks env.sidebarPresent env.sidebarLinks dom ≠ [] →
      (updateAllListCounts st env dom).state.lastUpdateTime = env.now) ∧
    (∀ (st : SchedulerState) (env : RunEnv) (dom : Dom) (p : String) (d : Doc)
        (f : String → NetworkBehavior),
      (updateAllListCounts st env dom).state =
        (updateAllListCounts st { env with pathname := p, liveDoc := d, fetch := f } dom).state) ∧
    (∀ (st : SchedulerState) (env : RunEnv) (dom : Dom) (env2 : RunEnv) (dom2 : Dom),
      cooldownActive st env.now = false → env.sidebarPresent = true →
      findAllListLinks env.sidebarPresent env.sidebarLinks dom ≠ [] →
      env2.now - env.now < updateCooldown →
      updateAllListCounts (updateAllListCounts st env dom).state env2 dom2 =
        ⟨(updateAllListCounts st env dom).state, dom2, []⟩) := by
  have h1 : ∀ (st : SchedulerState) (env : RunEnv) (dom : Dom),
      cooldownActive st env.now = true → updateAllListCounts st env dom = ⟨st, dom, []⟩ :=
    fun st env dom h => updateAllListCounts_gated st env dom h
  have h3 : ∀ (st : SchedulerState) (env : RunEnv) (dom : Dom),
      cooldownActive st env.now = false → env.sidebarPresent = true →
      findAllListLinks env.sidebarPresent env.sidebarLinks dom ≠ [] →
      (updateAllListCounts st env dom).state.lastUpdateTime = env.now := by
    intro st env dom hc hs hn
    rw [updateAllListCounts_run st env dom hc hs hn]
  refine ⟨h1, ?_, h3, ?_, ?_⟩
  · intro now h
    unfold cooldownActive initState updateCooldown at *
    simp only [Nat.sub_zero]
    exact decide_eq_false (by omega)
  · intro st env dom p d f
    obtain ⟨n0, sb, links, pn, ld, f0⟩ := env
    cases hc : cooldownActive st n0 with
    | true =>
      rw [updateAllListCounts_gated st _ dom hc, updateAllListCounts_gated st _ dom hc]
    | false =>
      unfold updateAllListCounts
      rw [hc]
      cases sb with
      | false => rfl
      | true =>
        dsimp only
        cases hfa : findAllListLinks true links dom with
        | nil => rfl
        | cons a rest => rfl
  · intro st env dom env2 dom2 hc hs hn h2
    have hlast := h3 st env dom hc hs hn
    apply h1
    unfold cooldownActive
    rw [hlast]
    exact decide_eq_true h2

/-- C2 witness: the gate suppresses a run 5 s after the previous one, the
first run at a realistic clock is not gated, a passing run arms the gate
with its own clock value, and an immediate second run changes nothing. -/
theorem claim2_cooldown_gate_witness :
    updateAllListCounts ⟨[], 15000⟩ envReading ["12"] = ⟨⟨[], 15000⟩, ["12"], []⟩ ∧
    cooldownActive initState 20000 = false ∧
    (updateAllListCounts initState envReading ["12"]).state.lastUpdateTime = 20000 ∧
    updateAllListCounts (updateAllListCounts initState envReading ["12"]).state
        { envReading with now := 25000 } ["0"] =
      ⟨(updateAllListCounts initState envReading ["12"]).state, ["0"], []⟩ :=
  ⟨claim2_cooldown_gate.1 ⟨[], 15000⟩ envReading ["12"] (by decide),
   claim2_cooldown_gate.2.1 20000 (by decide),
   claim2_cooldown_gate.2.2.1 initState envReading ["12"] (by decide) rfl (by decide),
   claim2_cooldown_gate.2.2.2.2 initState envReading ["12"] { envReading with now := 25000 }
     ["0"] (by decide) rfl (by decide) (by decide)⟩

/-- C8: within one run the per-list write-backs are independent — with
pairwise-distinct badges, a list's final badge text depends only on its own
resolution, so a rejection in any other list's resolution changes nothing
for it; an exception resolution itself writes nothing; and the fan-out
preserves the badge store's shape. -/
theorem claim8_failure_independence (infos : List ListInfo) (dom : Dom) (info : ListInfo)
    (hmem : info ∈ infos) (hnodup : (infos.map ListInfo.badgeId).Nodup)
    (r1 r2 : ListInfo → ResolveResult) (hagree : r1 info = r2 info) :
    (runWrites r1 infos dom)[info.badgeId]? = (runWrites r2 infos dom)[info.badgeId]? ∧
    (∀ (d : Dom) (i : ListInfo) (e : String), updateListCount d i (.error e) = d) ∧
    (runWrites r1 infos dom).length = dom.length := by
  refine ⟨?_, fun _ _ _ => rfl, runWrites_length _ _ _⟩
  rw [runWrites_get_mem r1 infos dom info hmem hnodup,
    runWrites_get_mem r2 infos dom info hmem hnodup, hagree]

/-- C8 witness: list B's resolution rejecting does not change list A's final
badge text. -/
theorem claim8_failure_independence_witness :
    (runWrites (fun _ => .ok (some 5)) [⟨"a", "A", 0, 12⟩, ⟨"b", "B", 1, 8⟩] ["12", "8"])[0]? =
      (runWrites (fun i => if i.badgeId = 0 then .ok (some 5) else .error "boom")
        [⟨"a", "A", 0, 12⟩, ⟨"b", "B", 1, 8⟩] ["12", "8"])[0]? :=
  (claim8_failure_independence [⟨"a", "A", 0, 12⟩, ⟨"b", "B", 1, 8⟩] ["12", "8"]
    ⟨"a", "A", 0, 12⟩ (by decide) (by decide) _ _ rfl).1

/-- C9 counterexample: for the sidebar link with destination
`/dashboard/lists/a/b` the scanner's listId is `a/b` — everything after the
first `/lists/` — not the trailing path segment `b` the claim states. -/
theorem claim9_scanner_counterexample :
    (findAllListLinks true [⟨"/dashboard/lists/a/b", "Later", some 0⟩] ["7"]).map
        ListInfo.listId = ["a/b"] ∧
    specTrailingSegment "/dashboard/lists/a/b" = "b" ∧
    ("a/b" : String) ≠ "b" := by
  refine ⟨by decide, by decide, by decide⟩

/-- C9 amended: the scan keeps exactly the sidebar links whose destination
contains `/lists/`; for each kept link the descriptor's listId is the
`split('/lists/')[1]` substring (the text after the first `/lists/`, up to
the next occurrence or the end — the trailing path segment only when no
further `/` or `/lists/` follows), the name is the trimmed link text, and
the displayed count is the badge text parsed as an integer defaulting to 0;
links with a falsy extracted listId or no discoverable badge are skipped. -/
theorem claim9_scanner_amended (links : List LinkElem) (dom : Dom) :
    (∀ l ∈ links, ∀ (lid : String) (b : Nat),
      jsIncludes l.href "/lists/" = true → extractListId l.href = some lid → lid ≠ "" →
      l.badge = some b →
      ({ listId := lid, name := jsTrim l.text, badgeId := b,
         currentCount := parseIntOr0 (jsTrim (dom.getD b "")) } : ListInfo)
        ∈ findAllListLinks true links dom) ∧
    (∀ info ∈ findAllListLinks true links dom, ∃ l ∈ links,
      jsIncludes l.href "/lists/" = true ∧ extractListId l.href = some info.listId ∧
      info.listId ≠ "" ∧ l.badge = some info.badgeId ∧ info.name = jsTrim l.text ∧
      info.currentCount = parseIntOr0 (jsTrim (dom.getD info.badgeId ""))) ∧
    (∀ l : LinkElem,
      extractListId l.href = some "" ∨ extractListId l.href = none ∨ l.badge = none →
      findAllListLinks true [l] dom = []) := by
  have hred : ∀ ls : List LinkElem, findAllListLinks true ls dom
      = (ls.filter (fun l => jsIncludes l.href "/lists/")).filterMap (scanLink dom) :=
    fun ls => rfl
  refine ⟨?_, ?_, ?_⟩
  · intro l hl lid b hinc hext hlid hb
    rw [hred]
    refine List.mem_filterMap.mpr ⟨l, List.mem_filter.mpr ⟨hl, hinc⟩, ?_⟩
    unfold scanLink
    rw [hext, hb]
    dsimp only
    rw [if_pos hlid]
  · intro info hinfo
    rw [hred] at hinfo
    obtain ⟨l, hlf, hfl⟩ := List.mem_filterMap.mp hinfo
    obtain ⟨hl, hinc⟩ := List.mem_filter.mp hlf
    refine ⟨l, hl, hinc, ?_⟩
    unfold scanLink at hfl
    cases hext : extractListId l.href with
    | none =>
      rw [hext] at hfl
      cases hb : l.badge <;> rw [hb] at hfl <;> exact absurd hfl (by simp)
    | some lid =>
      cases hb : l.badge with
      | none =>
        rw [hext, hb] at hfl
        exact absurd hfl (by simp)
      | some b =>
        rw [hext, hb] at hfl
        dsimp only at hfl
        by_cases hlid : lid ≠ ""
        · rw [if_pos hlid] at hfl
          cases Option.some.inj hfl
          exact ⟨rfl, hlid, rfl, rfl, rfl⟩
        · rw [if_neg hlid] at hfl
          exact absurd hfl (by simp)
  · intro l h
    rw [hred]
    cases hinc : jsIncludes l.href "/lists/" with
    | false => simp [List.filter_cons, hinc]
    | true =>
      have hfl : scanLink dom l = none := by
        unfold scanLink
        rcases h with h | h | h
        · rw [h]
          cases hb : l.badge with
          | none => rfl
          | some b => simp
        · rw [h]
        · rw [h]
          cases hext : extractListId l.href <;> rfl
      simp [List.filter_cons, hinc, List.filterMap_cons, hfl]

/-- C9 witness: the link `/dashboard/lists/abc123` with trimmed name
"Reading" and badge text "12" yields the expected descriptor. -/
theorem claim9_scanner_amended_witness :
    ({ listId := "abc123", name := "Reading", badgeId := 0, currentCount := 12 } : ListInfo)
      ∈ findAllListLinks true [⟨"/dashboard/lists/abc123", " Reading ", some 0⟩] ["12"] :=
  (claim9_scanner_amended [⟨"/dashboard/lists/abc123", " Reading ", some 0⟩] ["12"]).1
    ⟨"/dashboard/lists/abc123", " Reading ", some 0⟩ (by decide) "abc123" 0
    (by decide) (by decide) (by decide) rfl

/-- C10: the `listCounts` cache is dead state — no run ever writes it, no
run output (DOM, fetch log, armed timestamp) ever reads it, and across any
sequence of runs from the constructor's state it stays empty. -/
theorem claim10_dead_cache :
    (∀ (st : SchedulerState) (env : RunEnv) (dom : Dom),
      (updateAllListCounts st env dom).state.listCounts = st.listCounts) ∧
    (∀ (st₁ st₂ : SchedulerState) (env : RunEnv) (dom : Dom),
      st₁.lastUpdateTime = st₂.lastUpdateTime →
      (updateAllListCounts st₁ env dom).dom = (updateAllListCounts st₂ env dom).dom ∧
      (updateAllListCounts st₁ env dom).fetches = (updateAllListCounts st₂ env dom).fetches ∧
      (updateAllListCounts st₁ env dom).state.lastUpdateTime
        = (updateAllListCounts st₂ env dom).state.lastUpdateTime) ∧
    (∀ evs : List (RunEnv × Dom), (runSeq initState evs).listCounts = []) := by
  have hA : ∀ (st : SchedulerState) (env : RunEnv) (dom : Dom),
      (updateAllListCounts st env dom).state.listCounts = st.listCounts := by
    intro st env dom
    unfold updateAllListCounts
    dsimp only
    split
    · rfl
    split
    · rfl
    split
    · rfl
    · rfl
  refine ⟨hA, ?_, ?_⟩
  · intro st1 st2 env dom h
    have hc : cooldownActive st1 env.now = cooldownActive st2 env.now := by
      unfold cooldownActive
      rw [h]
    unfold updateAllListCounts
    rw [hc]
    dsimp only
    split
    · exact ⟨rfl, rfl, h⟩
    split
    · exact ⟨rfl, rfl, h⟩
    split
    · exact ⟨rfl, rfl, h⟩
    · exact ⟨rfl, rfl, rfl⟩
  · intro evs
    have key : ∀ (evs : List (RunEnv × Dom)) (st : SchedulerState),
        (runSeq st evs).listCounts = st.listCounts := by
      intro evs
      induction evs with
      | nil => intro st; rfl
      | cons e rest ih =>
        intro st
        have hstep : runSeq st (e :: rest)
            = runSeq (updateAllListCounts st e.1 e.2).state rest := rfl
        rw [hstep, ih, hA]
    exact key evs initState

/-- C10 witness: a run from the constructor's state leaves the cache empty,
and two states differing only in the cache produce the same DOM. -/
theorem claim10_dead_cache_witness :
    (updateAllListCounts initState envReading ["12"]).state.listCounts = [] ∧
    (updateAllListCounts ⟨[("x", 3)], 0⟩ envReading ["12"]).dom =
      (updateAllListCounts initState envReading ["12"]).dom :=
  ⟨claim10_dead_cache.1 initState envReading ["12"],
   (claim10_dead_cache.2.1 ⟨[("x", 3)], 0⟩ initState envReading ["12"] rfl).1⟩

end Karakeep
